import Mathlib

/-!
Shallow embedding of `src/endpoint/endpoint.go` (package `endpoint` of
external-dns): the `Endpoint` value type, its constructors
`NewEndpoint` / `NewEndpointWithTTL`, the label merge `MergeLabels`, the
three geolocation setters `SetContinentCode`, `SetCountryCode`,
`SetSubdivisionCode`, the `TTL.IsConfigured` predicate and the `String`
formatting method.

Modelling conventions:
- Go `string` is Lean `String`; all the byte patterns involved
  (the literal alternations and `[A-Z]`) only match ASCII bytes, so the
  character-level view coincides with Go byte-level matching.
- Go `map[string]string` lookup returns `""` for an absent key, and the
  code only ever observes labels through such lookups, so a label map is
  modelled as a total function `String → String` with default `""`.
  The argument of `MergeLabels` is a Go map iterated once per key, so it
  is modelled as a list of key/value pairs (key uniqueness is the
  `Nodup` hypothesis where it matters).
- Go methods mutate the receiver and return `error`; each setter is
  modelled as a function returning the post-state paired with
  `Option ValidationError` (`none` means the Go method returned `nil`).
- `TTL` is Go `int64`, modelled as `Int` (only order matters here).
-/

/-- TTL is a structure defining the TTL of a DNS record (Go `type TTL int64`). -/
abbrev TTL := Int

/-- IsConfigured returns true if TTL is configured, false otherwise
(Go `func (ttl TTL) IsConfigured() bool { return ttl > 0 }`). -/
def TTL.IsConfigured (ttl : TTL) : Bool :=
  ttl > 0

/-- GeoLocation provides the geolocation routing information for an endpoint. -/
structure GeoLocation where
  ContinentCode : String
  CountryCode : String
  SubdivisionCode : String
deriving DecidableEq, Repr

/-- Endpoint is a high-level way of a connection between a service and an IP
(Go struct `Endpoint`). `Labels` is the Go map viewed through its lookup
function (absent key = `""`). -/
structure Endpoint where
  DNSName : String
  Target : String
  RecordType : String
  RecordTTL : TTL
  Labels : String → String
  GeoLocation : GeoLocation

/-- The error value a setter returns on validation failure: a Go `error`
built by `fmt.Errorf`, carrying only its message. -/
structure ValidationError where
  message : String
deriving DecidableEq, Repr

/-- Go `strings.TrimSuffix(s, ".")` as used in `NewEndpointWithTTL`:
removes the suffix `"."` (one trailing dot) if present, otherwise returns
`s` unchanged. `"."` is a single ASCII byte, so the suffix test is
equivalent to the last character being `.`. -/
def trimSuffixDot (s : String) : String :=
  if s.data.getLast? = some '.' then String.mk s.data.dropLast else s

/-- NewEndpointWithTTL initialization method to be used to create an
endpoint with a TTL struct. -/
def NewEndpointWithTTL (dnsName target recordType : String) (ttl : TTL) : Endpoint :=
  { DNSName := trimSuffixDot dnsName
    Target := trimSuffixDot target
    RecordType := recordType
    RecordTTL := ttl
    Labels := fun _ => ""
    GeoLocation := { ContinentCode := "", CountryCode := "", SubdivisionCode := "" } }

/-- NewEndpoint initialization method to be used to create an endpoint
(delegates to `NewEndpointWithTTL` with `TTL(0)`). -/
def NewEndpoint (dnsName target recordType : String) : Endpoint :=
  NewEndpointWithTTL dnsName target recordType 0

/-- Point update of a Go map viewed as its lookup function:
`m[k] = v`. -/
def mapInsert (m : String → String) (k v : String) : String → String :=
  fun q => if q = k then v else m q

/-- MergeLabels adds keys to labels if not defined for the endpoint
(Go: `for k, v := range labels { if e.Labels[k] == "" { e.Labels[k] = v } }`). -/
def MergeLabels (e : Endpoint) (labels : List (String × String)) : Endpoint :=
  { e with Labels :=
      labels.foldl (fun m kv => if m kv.1 = "" then mapInsert m kv.1 kv.2 else m) e.Labels }

/-- Whether `c` is an ASCII byte matched by the regexp character class `[A-Z]`. -/
def isUpperAZ (c : Char) : Bool :=
  decide ('A' ≤ c) && decide (c ≤ 'Z')

/-- Denotation of the anchored Go regexp used by `SetContinentCode`
(`regexp.Match` on the whole input, pattern with the seven continent
codes, the star, or nothing between the anchors): the input is one of
the seven continent codes, the literal star, or empty. -/
def matchContinentCode (s : String) : Bool :=
  s == "" || s == "AF" || s == "AN" || s == "AS" || s == "EU" ||
    s == "OC" || s == "NA" || s == "SA" || s == "*"

/-- Denotation of the anchored Go regexp used by `SetCountryCode`
(one or two `[A-Z]` bytes, the literal star, or nothing between the
anchors). -/
def matchCountryCode (s : String) : Bool :=
  s == "" || s == "*" ||
    (decide (1 ≤ s.data.length) && decide (s.data.length ≤ 2) && s.data.all isUpperAZ)

/-- Denotation of the anchored Go regexp used by `SetSubdivisionCode`
(one to three `[A-Z]` bytes or nothing between the anchors). -/
def matchSubdivisionCode (s : String) : Bool :=
  s == "" ||
    (decide (1 ≤ s.data.length) && decide (s.data.length ≤ 3) && s.data.all isUpperAZ)

/-- The expected-format description part of the `SetContinentCode`
failure message. -/
def continentCodeExpectedFormat : String :=
  "\x27AF|AN|AS|EU|OC|NA|SA|*\x27 or empty string"

/-- The expected-format description part of the `SetCountryCode`
failure message (describing the 1-2 uppercase characters bound). -/
def countryCodeExpectedFormat : String :=
  "1-2 uppercase characters, *  or empty string"

/-- The expected-format description part of the `SetSubdivisionCode`
failure message. -/
def subdivisionCodeExpectedFormat : String :=
  "1-3 uppercase characters or empty string"

/-- SetContinentCode validates and sets the ContinentCode value.
Returns the post-state and the Go `error` result (the Go method mutates
the receiver on success and leaves it untouched on failure). -/
def SetContinentCode (e : Endpoint) (continentCode : String) :
    Endpoint × Option ValidationError :=
  if matchContinentCode continentCode then
    ({ e with GeoLocation := { e.GeoLocation with ContinentCode := continentCode } }, none)
  else
    (e, some { message :=
      continentCode ++
        " is not a valid ContinentCode format, expected \x27AF|AN|AS|EU|OC|NA|SA|*\x27 or empty string" })

/-- SetCountryCode validates and sets the CountryCode value (the failure
message names SubdivisionCode, faithfully to the source). -/
def SetCountryCode (e : Endpoint) (countryCode : String) :
    Endpoint × Option ValidationError :=
  if matchCountryCode countryCode then
    ({ e with GeoLocation := { e.GeoLocation with CountryCode := countryCode } }, none)
  else
    (e, some { message :=
      countryCode ++
        " is not a valid SubdivisionCode format, expected 1-2 uppercase characters, *  or empty string" })

/-- SetSubdivisionCode validates and sets the SubdivisionCode value. -/
def SetSubdivisionCode (e : Endpoint) (subdivisionCode : String) :
    Endpoint × Option ValidationError :=
  if matchSubdivisionCode subdivisionCode then
    ({ e with GeoLocation := { e.GeoLocation with SubdivisionCode := subdivisionCode } }, none)
  else
    (e, some { message :=
      subdivisionCode ++
        " is not a valid SubdivisionCode format, expected 1-3 uppercase characters or empty string" })

/-- The `String` method of `Endpoint`
(Go `fmt.Sprintf("%s %d IN %s %s", e.DNSName, e.RecordTTL, e.RecordType, e.Target)`). -/
def EndpointString (e : Endpoint) : String :=
  e.DNSName ++ " " ++ toString e.RecordTTL ++ " IN " ++ e.RecordType ++ " " ++ e.Target

/-- One mutating operation applied to an endpoint: a `MergeLabels` call or
any call (successful or failed) of one of the three geolocation setters. -/
inductive Step : Endpoint → Endpoint → Prop
  | merge (e : Endpoint) (labels : List (String × String)) : Step e (MergeLabels e labels)
  | setContinent (e : Endpoint) (c : String) : Step e (SetContinentCode e c).1
  | setCountry (e : Endpoint) (c : String) : Step e (SetCountryCode e c).1
  | setSubdivision (e : Endpoint) (c : String) : Step e (SetSubdivisionCode e c).1

/-- Reachability of one endpoint state from another by any sequence of
mutating operations. -/
inductive Reaches : Endpoint → Endpoint → Prop
  | refl (e : Endpoint) : Reaches e e
  | tail {e f g : Endpoint} : Reaches e f → Step f g → Reaches e g

/-! ## Helper lemmas -/

/-- String append is associative (via the underlying character lists). -/
lemma strAppendAssoc (a b c : String) : a ++ b ++ c = a ++ (b ++ c) := by
  apply String.ext
  simp [String.data_append, List.append_assoc]

/-- If the input ends in a dot, `trimSuffixDot` drops exactly the last
character. -/
lemma trimSuffixDot_eq_dropLast (s : String) (h : s.data.getLast? = some '.') :
    trimSuffixDot s = String.mk s.data.dropLast := by
  unfold trimSuffixDot
  rw [if_pos h]

/-- If the input does not end in a dot, `trimSuffixDot` is the identity. -/
lemma trimSuffixDot_eq_self (s : String) (h : s.data.getLast? ≠ some '.') :
    trimSuffixDot s = s := by
  unfold trimSuffixDot
  rw [if_neg h]

/-- Unless the input ends in two (or more) dots, the result of
`trimSuffixDot` does not end in a dot. -/
lemma trimSuffixDot_getLast_ne (s : String)
    (h : ¬(s.data.getLast? = some '.' ∧ s.data.dropLast.getLast? = some '.')) :
    (trimSuffixDot s).data.getLast? ≠ some '.' := by
  unfold trimSuffixDot
  by_cases hl : s.data.getLast? = some '.'
  · rw [if_pos hl]
    intro hc
    exact h ⟨hl, hc⟩
  · rw [if_neg hl]
    exact hl

/-- Every mutating operation leaves `DNSName` and `Target` unchanged. -/
lemma Step_preserves_name_target {e f : Endpoint} (h : Step e f) :
    f.DNSName = e.DNSName ∧ f.Target = e.Target := by
  cases h with
  | merge labels => exact ⟨rfl, rfl⟩
  | setContinent c =>
      constructor <;> (unfold SetContinentCode; split <;> rfl)
  | setCountry c =>
      constructor <;> (unfold SetCountryCode; split <;> rfl)
  | setSubdivision c =>
      constructor <;> (unfold SetSubdivisionCode; split <;> rfl)

/-! ## Claim C1 -/

/-- Claim C1, counterexample: the claim as stated is false. For the input
dnsName `"a.."` the constructed endpoint has DNSName `"a."`, which ends
with the character `.` — `strings.TrimSuffix` strips only one trailing
dot, not all of them. -/
theorem endpoint_C1_counterexample :
    (NewEndpoint "a.." "b" "A").DNSName = "a." ∧
    (NewEndpoint "a.." "b" "A").DNSName.data.getLast? = some '.' := by
  constructor
  · decide
  · decide

/-- Claim C1 (amended): for inputs `dnsName` and `target` that do not end
in two consecutive dots, the endpoint built by `NewEndpointWithTTL` (and
hence `NewEndpoint`) has a DNSName and a Target that do not end with the
character `.`, and this invariant is preserved by every reachable state
under `MergeLabels`, `SetContinentCode`, `SetCountryCode` and
`SetSubdivisionCode`, none of which changes these fields. -/
theorem endpoint_C1_no_trailing_dot_reachable
    (d t r : String) (ttl : TTL) (e : Endpoint)
    (hd : ¬(d.data.getLast? = some '.' ∧ d.data.dropLast.getLast? = some '.'))
    (ht : ¬(t.data.getLast? = some '.' ∧ t.data.dropLast.getLast? = some '.'))
    (hr : Reaches (NewEndpointWithTTL d t r ttl) e) :
    e.DNSName.data.getLast? ≠ some '.' ∧ e.Target.data.getLast? ≠ some '.' := by
  induction hr with
  | refl =>
      exact ⟨trimSuffixDot_getLast_ne d hd, trimSuffixDot_getLast_ne t ht⟩
  | tail hreach hstep ih =>
      obtain ⟨hn, htg⟩ := Step_preserves_name_target hstep
      rw [hn, htg]
      exact ih

/-- Claim C1, witness: a concrete instantiation of the amended theorem at
the freshly constructed endpoint. -/
theorem endpoint_C1_witness :
    (NewEndpointWithTTL "example.com." "1.2.3.4" "A" 300).DNSName.data.getLast? ≠ some '.' ∧
    (NewEndpointWithTTL "example.com." "1.2.3.4" "A" 300).Target.data.getLast? ≠ some '.' :=
  endpoint_C1_no_trailing_dot_reachable "example.com." "1.2.3.4" "A" 300 _
    (by decide) (by decide) (Reaches.refl _)

/-! ## Claim C2 -/

/-- Claim C2: an input `dnsName` (likewise `target`) ending in exactly one
dot is stored with precisely that last character removed, and an input
not ending in a dot is stored unchanged. -/
theorem endpoint_C2_strips_one_trailing_dot
    (dnsName target recordType : String) (ttl : TTL) :
    (dnsName.data.getLast? = some '.' ∧ dnsName.data.dropLast.getLast? ≠ some '.' →
      (NewEndpointWithTTL dnsName target recordType ttl).DNSName =
        String.mk dnsName.data.dropLast) ∧
    (dnsName.data.getLast? ≠ some '.' →
      (NewEndpointWithTTL dnsName target recordType ttl).DNSName = dnsName) ∧
    (target.data.getLast? = some '.' ∧ target.data.dropLast.getLast? ≠ some '.' →
      (NewEndpointWithTTL dnsName target recordType ttl).Target =
        String.mk target.data.dropLast) ∧
    (target.data.getLast? ≠ some '.' →
      (NewEndpointWithTTL dnsName target recordType ttl).Target = target) :=
  ⟨fun h => trimSuffixDot_eq_dropLast dnsName h.1,
   fun h => trimSuffixDot_eq_self dnsName h,
   fun h => trimSuffixDot_eq_dropLast target h.1,
   fun h => trimSuffixDot_eq_self target h⟩

/-- Claim C2, witness: concrete instantiation — `"example.com."` loses
exactly its final dot and `"1.2.3.4"` is stored unchanged. -/
theorem endpoint_C2_witness :
    (NewEndpointWithTTL "example.com." "1.2.3.4" "A" 300).DNSName =
      String.mk ("example.com." : String).data.dropLast ∧
    (NewEndpointWithTTL "example.com." "1.2.3.4" "A" 300).Target = "1.2.3.4" :=
  ⟨(endpoint_C2_strips_one_trailing_dot "example.com." "1.2.3.4" "A" 300).1 (by decide),
   (endpoint_C2_strips_one_trailing_dot "example.com." "1.2.3.4" "A" 300).2.2.2 (by decide)⟩

/-! ## Claim C3 -/

/-- The merge fold does not touch keys that do not occur in the input. -/
lemma mergeFold_not_mem (labels : List (String × String)) (m : String → String) (k : String)
    (hk : k ∉ labels.map Prod.fst) :
    labels.foldl (fun m kv => if m kv.1 = "" then mapInsert m kv.1 kv.2 else m) m k = m k := by
  induction labels generalizing m with
  | nil => rfl
  | cons kv rest ih =>
      simp only [List.map_cons, List.mem_cons, not_or] at hk
      obtain ⟨hne, hrest⟩ := hk
      rw [List.foldl_cons, ih _ hrest]
      by_cases hm : m kv.1 = ""
      · rw [if_pos hm]
        unfold mapInsert
        rw [if_neg hne]
      · rw [if_neg hm]

/-- The merge fold leaves every key whose current value is non-empty at
that value. -/
lemma mergeFold_keeps (labels : List (String × String)) (m : String → String) (k : String)
    (hm : m k ≠ "") :
    labels.foldl (fun m kv => if m kv.1 = "" then mapInsert m kv.1 kv.2 else m) m k = m k := by
  induction labels generalizing m with
  | nil => rfl
  | cons kv rest ih =>
      rw [List.foldl_cons]
      by_cases he : m kv.1 = ""
      · rw [if_pos he]
        have hne : k ≠ kv.1 := fun hkk => hm (hkk ▸ he)
        have hins : mapInsert m kv.1 kv.2 k = m k := by
          unfold mapInsert
          rw [if_neg hne]
        rw [ih _ (by rw [hins]; exact hm), hins]
      · rw [if_neg he]
        exact ih m hm

/-- The merge fold sets every input key whose current value is empty to
the input value, provided the input keys are distinct (as the keys of a
Go map are). -/
lemma mergeFold_sets (labels : List (String × String)) (m : String → String)
    (kv : String × String) (hnd : (labels.map Prod.fst).Nodup) (hmem : kv ∈ labels)
    (hm : m kv.1 = "") :
    labels.foldl (fun m p => if m p.1 = "" then mapInsert m p.1 p.2 else m) m kv.1 = kv.2 := by
  induction labels generalizing m with
  | nil => cases hmem
  | cons p rest ih =>
      rw [List.map_cons, List.nodup_cons] at hnd
      obtain ⟨hp, hndrest⟩ := hnd
      rw [List.foldl_cons]
      rcases List.mem_cons.mp hmem with heq | hmemrest
      · subst heq
        rw [if_pos hm]
        have hlast : mapInsert m kv.1 kv.2 kv.1 = kv.2 := by
          unfold mapInsert
          rw [if_pos rfl]
        rw [mergeFold_not_mem rest _ kv.1 hp, hlast]
      · have hkne : kv.1 ≠ p.1 := by
          intro hkk
          exact hp (hkk ▸ List.mem_map_of_mem Prod.fst hmemrest)
        by_cases he : m p.1 = ""
        · rw [if_pos he]
          have hins : mapInsert m p.1 p.2 kv.1 = m kv.1 := by
            unfold mapInsert
            rw [if_neg hkne]
          exact ih _ hndrest hmemrest (by rw [hins]; exact hm)
        · rw [if_neg he]
          exact ih m hndrest hmemrest hm

/-- Claim C3: after `MergeLabels`, every input key whose prior value was
absent or empty (Go map lookup gives the empty string in both cases)
holds the input value, and every key with a non-empty prior value keeps
it. The input keys are distinct, as the keys of a Go map are. -/
theorem endpoint_C3_merge_labels (e : Endpoint) (labels : List (String × String))
    (hnd : (labels.map Prod.fst).Nodup) :
    (∀ kv ∈ labels, e.Labels kv.1 = "" → (MergeLabels e labels).Labels kv.1 = kv.2) ∧
    (∀ k, e.Labels k ≠ "" → (MergeLabels e labels).Labels k = e.Labels k) := by
  constructor
  · intro kv hmem hempty
    exact mergeFold_sets labels e.Labels kv hnd hmem hempty
  · intro k hne
    exact mergeFold_keeps labels e.Labels k hne

/-- Claim C3, witness: merging `owner ↦ me` into a fresh endpoint (where
the label is absent) stores it, and a non-empty label survives a merge
that tries to overwrite it. -/
theorem endpoint_C3_witness :
    (MergeLabels (NewEndpoint "example.com" "1.2.3.4" "A") [("owner", "me")]).Labels "owner" =
      "me" ∧
    (MergeLabels (MergeLabels (NewEndpoint "example.com" "1.2.3.4" "A") [("owner", "me")])
        [("owner", "you")]).Labels "owner" = "me" := by
  constructor
  · exact (endpoint_C3_merge_labels (NewEndpoint "example.com" "1.2.3.4" "A")
      [("owner", "me")] (by decide)).1 ("owner", "me") (by decide) (by decide)
  · exact (endpoint_C3_merge_labels
      (MergeLabels (NewEndpoint "example.com" "1.2.3.4" "A") [("owner", "me")])
      [("owner", "you")] (by decide)).2 "owner" (by decide)

/-! ## Claim C4 -/

/-- Claim C4: each geolocation setter, on an argument matching its format
pattern, returns success and sets its field; on a non-matching argument
it returns a `ValidationError` and leaves its field unchanged. -/
theorem endpoint_C4_setter_validation (e : Endpoint) (code : String) :
    (matchContinentCode code = true →
      (SetContinentCode e code).2 = none ∧
      (SetContinentCode e code).1.GeoLocation.ContinentCode = code) ∧
    (matchContinentCode code = false →
      (∃ err, (SetContinentCode e code).2 = some err) ∧
      (SetContinentCode e code).1.GeoLocation.ContinentCode = e.GeoLocation.ContinentCode) ∧
    (matchCountryCode code = true →
      (SetCountryCode e code).2 = none ∧
      (SetCountryCode e code).1.GeoLocation.CountryCode = code) ∧
    (matchCountryCode code = false →
      (∃ err, (SetCountryCode e code).2 = some err) ∧
      (SetCountryCode e code).1.GeoLocation.CountryCode = e.GeoLocation.CountryCode) ∧
    (matchSubdivisionCode code = true →
      (SetSubdivisionCode e code).2 = none ∧
      (SetSubdivisionCode e code).1.GeoLocation.SubdivisionCode = code) ∧
    (matchSubdivisionCode code = false →
      (∃ err, (SetSubdivisionCode e code).2 = some err) ∧
      (SetSubdivisionCode e code).1.GeoLocation.SubdivisionCode =
        e.GeoLocation.SubdivisionCode) := by
  refine ⟨fun h => ?_, fun h => ?_, fun h => ?_, fun h => ?_, fun h => ?_, fun h => ?_⟩ <;>
    simp [SetContinentCode, SetCountryCode, SetSubdivisionCode, h]

/-- Claim C4, witness: `SetContinentCode "EU"` succeeds and sets the
field, `SetContinentCode "XX"` fails and leaves the field unchanged, on a
fresh endpoint. -/
theorem endpoint_C4_witness :
    ((SetContinentCode (NewEndpoint "example.com" "1.2.3.4" "A") "EU").2 = none ∧
      (SetContinentCode (NewEndpoint "example.com" "1.2.3.4" "A")
        "EU").1.GeoLocation.ContinentCode = "EU") ∧
    (∃ err, (SetContinentCode (NewEndpoint "example.com" "1.2.3.4" "A") "XX").2 = some err) ∧
    (SetContinentCode (NewEndpoint "example.com" "1.2.3.4" "A")
        "XX").1.GeoLocation.ContinentCode =
      (NewEndpoint "example.com" "1.2.3.4" "A").GeoLocation.ContinentCode :=
  ⟨(endpoint_C4_setter_validation (NewEndpoint "example.com" "1.2.3.4" "A") "EU").1
      (by decide),
   (endpoint_C4_setter_validation (NewEndpoint "example.com" "1.2.3.4" "A") "XX").2.1
      (by decide)⟩

/-! ## Claim C5 -/

/-- Claim C5: `TTL.IsConfigured` is true exactly when the TTL is
positive; it is false at zero and at every negative TTL. -/
theorem endpoint_C5_is_configured (ttl : TTL) :
    (TTL.IsConfigured ttl = true ↔ 0 < ttl) ∧
    TTL.IsConfigured 0 = false ∧
    (ttl < 0 → TTL.IsConfigured ttl = false) := by
  refine ⟨?_, rfl, fun h => ?_⟩
  · simp [TTL.IsConfigured]
  · simp only [TTL.IsConfigured, decide_eq_false_iff_not]
    exact not_lt.mpr (le_of_lt h)

/-- Claim C5, witness: concrete instantiation at a negative TTL,
discharging the hypothesis, together with the positive and zero cases. -/
theorem endpoint_C5_witness :
    TTL.IsConfigured (-7) = false ∧ (TTL.IsConfigured 300 = true ↔ (0 : Int) < 300) :=
  ⟨(endpoint_C5_is_configured (-7)).2.2 (by decide), (endpoint_C5_is_configured 300).1⟩

/-! ## Claims C6 and C7 -/

/-- `SetCountryCode` succeeds exactly when the argument matches the
country-code pattern. -/
lemma SetCountryCode_ok_iff (e : Endpoint) (code : String) :
    (SetCountryCode e code).2 = none ↔ matchCountryCode code = true := by
  by_cases hm : matchCountryCode code
  · simp [SetCountryCode, hm]
  · simp [SetCountryCode, hm]

/-- `SetSubdivisionCode` succeeds exactly when the argument matches the
subdivision-code pattern. -/
lemma SetSubdivisionCode_ok_iff (e : Endpoint) (code : String) :
    (SetSubdivisionCode e code).2 = none ↔ matchSubdivisionCode code = true := by
  by_cases hm : matchSubdivisionCode code
  · simp [SetSubdivisionCode, hm]
  · simp [SetSubdivisionCode, hm]

/-- The country-code pattern holds exactly for the empty string, the
star, or one to two uppercase ASCII letters. -/
lemma matchCountryCode_iff (code : String) :
    matchCountryCode code = true ↔
      (code = "" ∨ code = "*" ∨
        (1 ≤ code.data.length ∧ code.data.length ≤ 2 ∧
          ∀ c ∈ code.data, 'A' ≤ c ∧ c ≤ 'Z')) := by
  simp [matchCountryCode, isUpperAZ, List.all_eq_true, and_assoc, or_assoc]

/-- The subdivision-code pattern holds exactly for the empty string or
one to three uppercase ASCII letters. -/
lemma matchSubdivisionCode_iff (code : String) :
    matchSubdivisionCode code = true ↔
      (code = "" ∨
        (1 ≤ code.data.length ∧ code.data.length ≤ 3 ∧
          ∀ c ∈ code.data, 'A' ≤ c ∧ c ≤ 'Z')) := by
  simp [matchSubdivisionCode, isUpperAZ, List.all_eq_true, and_assoc, or_assoc]

/-- Claim C6: `SetCountryCode` succeeds exactly when the code is empty,
the single character `*`, or one to two uppercase ASCII letters; in
particular `*` succeeds and `ABC` fails. -/
theorem endpoint_C6_country_code (e : Endpoint) (code : String) :
    ((SetCountryCode e code).2 = none ↔
      (code = "" ∨ code = "*" ∨
        (1 ≤ code.data.length ∧ code.data.length ≤ 2 ∧
          ∀ c ∈ code.data, 'A' ≤ c ∧ c ≤ 'Z'))) ∧
    (SetCountryCode e "*").2 = none ∧
    (SetCountryCode e "ABC").2 ≠ none := by
  refine ⟨(SetCountryCode_ok_iff e code).trans (matchCountryCode_iff code), ?_, ?_⟩
  · exact (SetCountryCode_ok_iff e "*").mpr (by decide)
  · intro hc
    exact absurd ((SetCountryCode_ok_iff e "ABC").mp hc) (by decide)

/-- Claim C6, witness: concrete instantiation at a fresh endpoint. -/
theorem endpoint_C6_witness :
    (SetCountryCode (NewEndpoint "example.com" "1.2.3.4" "A") "*").2 = none ∧
    (SetCountryCode (NewEndpoint "example.com" "1.2.3.4" "A") "ABC").2 ≠ none :=
  ⟨(endpoint_C6_country_code (NewEndpoint "example.com" "1.2.3.4" "A") "US").2.1,
   (endpoint_C6_country_code (NewEndpoint "example.com" "1.2.3.4" "A") "US").2.2⟩

/-- Claim C7: `SetSubdivisionCode` succeeds exactly when the code is
empty or one to three uppercase ASCII letters; in particular `CA` and the
empty string succeed and `abcd` fails. -/
theorem endpoint_C7_subdivision_code (e : Endpoint) (code : String) :
    ((SetSubdivisionCode e code).2 = none ↔
      (code = "" ∨
        (1 ≤ code.data.length ∧ code.data.length ≤ 3 ∧
          ∀ c ∈ code.data, 'A' ≤ c ∧ c ≤ 'Z'))) ∧
    (SetSubdivisionCode e "CA").2 = none ∧
    (SetSubdivisionCode e "").2 = none ∧
    (SetSubdivisionCode e "abcd").2 ≠ none := by
  refine ⟨(SetSubdivisionCode_ok_iff e code).trans (matchSubdivisionCode_iff code), ?_, ?_, ?_⟩
  · exact (SetSubdivisionCode_ok_iff e "CA").mpr (by decide)
  · exact (SetSubdivisionCode_ok_iff e "").mpr (by decide)
  · intro hc
    exact absurd ((SetSubdivisionCode_ok_iff e "abcd").mp hc) (by decide)

/-- Claim C7, witness: concrete instantiation at a fresh endpoint. -/
theorem endpoint_C7_witness :
    (SetSubdivisionCode (NewEndpoint "example.com" "1.2.3.4" "A") "CA").2 = none ∧
    (SetSubdivisionCode (NewEndpoint "example.com" "1.2.3.4" "A") "abcd").2 ≠ none :=
  ⟨(endpoint_C7_subdivision_code (NewEndpoint "example.com" "1.2.3.4" "A") "X").2.1,
   (endpoint_C7_subdivision_code (NewEndpoint "example.com" "1.2.3.4" "A") "X").2.2.2⟩

/-! ## Claim C8 -/

/-- Claim C8: the `String` method produces the zone-file-like line built
from the stored fields, and on the endpoint constructed from
`"example.com."`, `"1.2.3.4"`, `"A"` with TTL 300 it yields
`"example.com 300 IN A 1.2.3.4"`. -/
theorem endpoint_C8_format (e : Endpoint) :
    EndpointString e =
      e.DNSName ++ " " ++ toString e.RecordTTL ++ " IN " ++ e.RecordType ++ " " ++ e.Target ∧
    EndpointString (NewEndpointWithTTL "example.com." "1.2.3.4" "A" 300) =
      "example.com 300 IN A 1.2.3.4" :=
  ⟨rfl, by decide⟩

/-! ## Claim C9 -/

/-- Claim C9: on a validation failure each setter returns an error whose
message carries the offending input value (as its leading part) followed
by the expected-format description of the field being set. For
`SetCountryCode` the message misnames the field as SubdivisionCode, but
the description it carries is the country-code format. -/
theorem endpoint_C9_error_message (e : Endpoint) (code : String) :
    (matchContinentCode code = false →
      ∃ err, (SetContinentCode e code).2 = some err ∧
        err.message = code ++ " is not a valid ContinentCode format, expected " ++
          continentCodeExpectedFormat) ∧
    (matchCountryCode code = false →
      ∃ err, (SetCountryCode e code).2 = some err ∧
        err.message = code ++ " is not a valid SubdivisionCode format, expected " ++
          countryCodeExpectedFormat) ∧
    (matchSubdivisionCode code = false →
      ∃ err, (SetSubdivisionCode e code).2 = some err ∧
        err.message = code ++ " is not a valid SubdivisionCode format, expected " ++
          subdivisionCodeExpectedFormat) := by
  refine ⟨fun h => ?_, fun h => ?_, fun h => ?_⟩
  · unfold SetContinentCode
    rw [if_neg (by simp [h])]
    refine ⟨_, rfl, ?_⟩
    rw [strAppendAssoc]
    exact congrArg (fun s => code ++ s) (by decide)
  · unfold SetCountryCode
    rw [if_neg (by simp [h])]
    refine ⟨_, rfl, ?_⟩
    rw [strAppendAssoc]
    exact congrArg (fun s => code ++ s) (by decide)
  · unfold SetSubdivisionCode
    rw [if_neg (by simp [h])]
    refine ⟨_, rfl, ?_⟩
    rw [strAppendAssoc]
    exact congrArg (fun s => code ++ s) (by decide)

/-- Claim C9, witness: the error returned for the invalid continent code
`XX` carries `XX` followed by the expected-format description. -/
theorem endpoint_C9_witness :
    ∃ err, (SetContinentCode (NewEndpoint "example.com" "1.2.3.4" "A") "XX").2 = some err ∧
      err.message = "XX" ++ " is not a valid ContinentCode format, expected " ++
        continentCodeExpectedFormat :=
  (endpoint_C9_error_message (NewEndpoint "example.com" "1.2.3.4" "A") "XX").1 (by decide)

/-! ## Claim C10 -/

/-- Claim C10: a successful geolocation setter call modifies only its own
geolocation sub-field; `DNSName`, `Target`, `RecordType`, `RecordTTL`,
`Labels` and the other two geolocation sub-fields are unchanged. -/
theorem endpoint_C10_frame (e : Endpoint) (code : String) :
    ((SetContinentCode e code).2 = none →
      (SetContinentCode e code).1.DNSName = e.DNSName ∧
      (SetContinentCode e code).1.Target = e.Target ∧
      (SetContinentCode e code).1.RecordType = e.RecordType ∧
      (SetContinentCode e code).1.RecordTTL = e.RecordTTL ∧
      (SetContinentCode e code).1.Labels = e.Labels ∧
      (SetContinentCode e code).1.GeoLocation.CountryCode = e.GeoLocation.CountryCode ∧
      (SetContinentCode e code).1.GeoLocation.SubdivisionCode =
        e.GeoLocation.SubdivisionCode) ∧
    ((SetCountryCode e code).2 = none →
      (SetCountryCode e code).1.DNSName = e.DNSName ∧
      (SetCountryCode e code).1.Target = e.Target ∧
      (SetCountryCode e code).1.RecordType = e.RecordType ∧
      (SetCountryCode e code).1.RecordTTL = e.RecordTTL ∧
      (SetCountryCode e code).1.Labels = e.Labels ∧
      (SetCountryCode e code).1.GeoLocation.ContinentCode = e.GeoLocation.ContinentCode ∧
      (SetCountryCode e code).1.GeoLocation.SubdivisionCode =
        e.GeoLocation.SubdivisionCode) ∧
    ((SetSubdivisionCode e code).2 = none →
      (SetSubdivisionCode e code).1.DNSName = e.DNSName ∧
      (SetSubdivisionCode e code).1.Target = e.Target ∧
      (SetSubdivisionCode e code).1.RecordType = e.RecordType ∧
      (SetSubdivisionCode e code).1.RecordTTL = e.RecordTTL ∧
      (SetSubdivisionCode e code).1.Labels = e.Labels ∧
      (SetSubdivisionCode e code).1.GeoLocation.ContinentCode = e.GeoLocation.ContinentCode ∧
      (SetSubdivisionCode e code).1.GeoLocation.CountryCode = e.GeoLocation.CountryCode) := by
  refine ⟨fun _ => ?_, fun _ => ?_, fun _ => ?_⟩ <;>
    · first
        | (unfold SetContinentCode; split <;> simp)
        | (unfold SetCountryCode; split <;> simp)
        | (unfold SetSubdivisionCode; split <;> simp)

/-- Claim C10, witness: a successful `SetContinentCode "EU"` on a fresh
endpoint leaves `DNSName` and the country sub-field unchanged. -/
theorem endpoint_C10_witness :
    (SetContinentCode (NewEndpoint "example.com" "1.2.3.4" "A") "EU").1.DNSName =
      (NewEndpoint "example.com" "1.2.3.4" "A").DNSName ∧
    (SetContinentCode (NewEndpoint "example.com" "1.2.3.4" "A") "EU").1.GeoLocation.CountryCode =
      (NewEndpoint "example.com" "1.2.3.4" "A").GeoLocation.CountryCode :=
  ⟨((endpoint_C10_frame (NewEndpoint "example.com" "1.2.3.4" "A") "EU").1 (by decide)).1,
   ((endpoint_C10_frame (NewEndpoint "example.com" "1.2.3.4" "A") "EU").1
      (by decide)).2.2.2.2.2.1⟩
